import Mathlib

set_option maxRecDepth 8000

/-!
Shallow embedding of ppolicy-cracklib.c, a password policy module for
OpenLDAP (single source file, 234 lines).

Modelling conventions:

* A C string is a `List Nat` of its byte values (the bytes strictly between
  the start of the buffer and the terminating NUL, so every byte is nonzero
  and below 256; theorems that need these facts take them as hypotheses).
* `char` is modelled as unsigned (as on AArch64/Linux, a common target for
  slapd modules).  On signed-char targets such as x86-64 the expression
  `chars[(size_t)*c]` on line 73 sign-extends bytes at or above 0x80 to an
  index far outside `int chars[256]`, an out-of-bounds write; under the
  unsigned-char model every byte lands in its own bucket `chars[b]`,
  matching the intent documented in the surrounding code.
* The ctype predicates (`isdigit`, `islower`, `isupper`, `ispunct`,
  `isspace`, `tolower`) are those of the C locale on byte values 0..255.
* All C arithmetic here is on nonnegative `int` values far below 2^31
  (a count times 100 could only overflow for passwords over 21 million
  bytes), so plain `Nat` arithmetic is exact; C integer division on
  nonnegative operands is `Nat` division (truncation toward zero).
* Undefined behaviour is made explicit: `is_palindrome` returns `none`
  on the empty string (line 38 computes `j = strlen(str) - 1`, which
  underflows to `SIZE_MAX`, and the loop then reads `str[SIZE_MAX]`);
  `check_password` produces the outcome `CPOutcome.undefinedAt` when it reaches
  line 223, which evaluates `*uid` while `uid` is the NULL pointer.
* The external cracklib oracle (`FascistCheck` / `FascistCheckUser`) is a
  parameter of `check_password`; syslog is modelled as an explicit list of
  emitted lines threaded through the call.
-/

/-! ## C-locale ctype predicates on byte values (lines 66-70, 45) -/

/-- C locale `isdigit`: bytes 48..57 (the digits 0-9). -/
def isdigitB (b : Nat) : Bool := decide (48 ≤ b ∧ b ≤ 57)

/-- C locale `islower`: bytes 97..122 (a-z). -/
def islowerB (b : Nat) : Bool := decide (97 ≤ b ∧ b ≤ 122)

/-- C locale `isupper`: bytes 65..90 (A-Z). -/
def isupperB (b : Nat) : Bool := decide (65 ≤ b ∧ b ≤ 90)

/-- C locale `ispunct`: printable bytes that are neither alphanumeric nor a
space: 33..47, 58..64, 91..96, 123..126. -/
def ispunctB (b : Nat) : Bool :=
  decide ((33 ≤ b ∧ b ≤ 47) ∨ (58 ≤ b ∧ b ≤ 64) ∨ (91 ≤ b ∧ b ≤ 96) ∨ (123 ≤ b ∧ b ≤ 126))

/-- C locale `isspace`: space (32) and the controls 9..13. -/
def isspaceB (b : Nat) : Bool := decide (b = 32 ∨ (9 ≤ b ∧ b ≤ 13))

/-- C locale `tolower` on a byte value: A-Z map to a-z, all else unchanged
(line 45 applies this to both compared characters). -/
def tolowerByte (b : Nat) : Nat := if 65 ≤ b ∧ b ≤ 90 then b + 32 else b

/-! ## The classification chain of the counting loop (lines 64-74)

The loop body is an if/else-if chain, so each byte increments exactly one
class counter; each predicate below carries the negations of its
predecessors in the chain, exactly as the else-ifs do. -/

/-- Line 66: `if(isdigit(*c)) total_digits++`. -/
def isDigitClass (b : Nat) : Bool := isdigitB b

/-- Line 67: `else if(islower(*c)) total_lower++`. -/
def isLowerClass (b : Nat) : Bool := !isdigitB b && islowerB b

/-- Line 68: `else if(isupper(*c)) total_upper++`. -/
def isUpperClass (b : Nat) : Bool := !isdigitB b && !islowerB b && isupperB b

/-- Line 69: `else if(ispunct(*c)) total_punct++`. -/
def isPunctClass (b : Nat) : Bool := !isdigitB b && !islowerB b && !isupperB b && ispunctB b

/-- Line 70: `else if(isspace(*c)) total_space++`. -/
def isSpaceClass (b : Nat) : Bool :=
  !isdigitB b && !islowerB b && !isupperB b && !ispunctB b && isspaceB b

/-- Line 71: `else total_other++` (the catch-all: controls, DEL, non-ASCII). -/
def isOtherClass (b : Nat) : Bool :=
  !isdigitB b && !islowerB b && !isupperB b && !ispunctB b && !isspaceB b

/-- `total_digits` after the counting loop. -/
def cntDigits (s : List Nat) : Nat := s.countP isDigitClass

/-- `total_lower` after the counting loop. -/
def cntLower (s : List Nat) : Nat := s.countP isLowerClass

/-- `total_upper` after the counting loop. -/
def cntUpper (s : List Nat) : Nat := s.countP isUpperClass

/-- `total_punct` after the counting loop. -/
def cntPunct (s : List Nat) : Nat := s.countP isPunctClass

/-- `total_space` after the counting loop. -/
def cntSpace (s : List Nat) : Nat := s.countP isSpaceClass

/-- `total_other` after the counting loop. -/
def cntOther (s : List Nat) : Nat := s.countP isOtherClass

/-- `chars[b]` after the counting loop: line 73, `(chars[(size_t)*c])++`,
under the unsigned-char model (see the header comment). -/
def charCount (s : List Nat) (b : Nat) : Nat := s.count b

/-- Lines 84-89 and 178: `(count * 100) / total`, C `int` division on
nonnegative operands, i.e. truncating division. -/
def classPct (count total : Nat) : Nat := count * 100 / total

/-! ## is_palindrome (lines 36-50) -/

/-- The do-while loop of lines 43-47: compare `str[i]` and `str[j]`
case-folded, then advance with `++i <= --j`.  The first argument is fuel
bounding the recursion; the loop runs at most `(j - i) / 2 + 1` times, so
any fuel of at least the string length is never exhausted on the calls
`is_palindrome` makes (fuel exhaustion returns `true`, the value the C loop
produces when its continuation test fails). -/
def palLoop (s : List Nat) : Nat → Nat → Nat → Bool
  | 0, _, _ => true
  | fuel + 1, i, j =>
    if tolowerByte (s.getD i 0) ≠ tolowerByte (s.getD j 0) then false
    else if i + 1 ≤ j - 1 then palLoop s fuel (i + 1) (j - 1)
    else true

/-- Lines 36-50.  `i = 0`, `j = strlen(str) - 1`; on the empty string `j`
underflows to `SIZE_MAX` (line 38), the `i == j` guard at line 40 does not
fire, and the loop reads `str[SIZE_MAX]`: an out-of-bounds access, modelled
as `none`.  On a one-byte string `i == j` and the result is `false`. -/
def is_palindrome (s : List Nat) : Option Bool :=
  if s.length = 0 then none
  else if (0 : Nat) = s.length - 1 then some false
  else some (palLoop s s.length 0 (s.length - 1))

/-! ## The single-character dominance loop (lines 174-185) -/

/-- Lines 176-185: `for(size_t i = 0; i < 255 && iter_total < total; i++)`.
The fuel argument counts the iterations remaining before `i` reaches 255,
so the initial call uses fuel 255 and `i = 0`; fuel 0 is exactly the exit
`i = 255` (note the loop bound `i < 255` never examines `chars[255]`).
Inside the body the percentage is computed, `iter_total` accumulates
`chars[i]`, and a percentage above 60 rejects. -/
def domScanAux (chars : Nat → Nat) (total : Nat) : Nat → Nat → Nat → Bool
  | 0, _, _ => false
  | fuel + 1, i, iterTotal =>
    if iterTotal < total then
      if chars i * 100 / total > 60 then true
      else domScanAux chars total fuel (i + 1) (iterTotal + chars i)
    else false

/-- The whole loop of lines 175-185, started at `i = 0`, `iter_total = 0`. -/
def domScan (chars : Nat → Nat) (total : Nat) : Bool := domScanAux chars total 255 0 0

/-- The dominance stage of `is_simple` (lines 174-188): reject with the
single-character reason if the scan fires, otherwise the password is
sufficiently complex (`return false` with `errstr` untouched). -/
def domStage (s : List Nat) : Bool × Option String :=
  if domScan (charCount s) s.length then
    (true, some "Password contains too many of a single character")
  else (false, none)

/-! ## is_simple (lines 53-189)

The C function returns `true` when the password is rejected, storing one
reason string through `errstr`; the model returns the pair
(return value, string stored through `errstr`, or `none` if untouched).
Every early `return true` of the C code makes the checks an if/else chain.
The percentage variables `total_digits` etc. (lines 84-89) are inlined. -/

def is_simple (s : List Nat) : Bool × Option String :=
  if s.length < 8 then
    (true, some "Password is too short")
  else if classPct (cntOther s) s.length < 20 then
    if classPct (cntDigits s) s.length > 40 then
      (true, some "Password contains too many digits")
    else if classPct (cntDigits s) s.length < 5 then
      (true, some "Password contains too few digits")
    else if classPct (cntLower s) s.length > 60 then
      (true, some "Password contains too many lowercase letters")
    else if classPct (cntLower s) s.length < 10 then
      (true, some "Password contains too few lowercase letters")
    else if classPct (cntUpper s) s.length > 60 then
      (true, some "Password contains too many uppercase letters")
    else if classPct (cntUpper s) s.length < 10 then
      (true, some "Password contains too few uppercase letters")
    else if classPct (cntPunct s) s.length > 70 then
      (true, some "Password contains too much punctuation")
    else if classPct (cntPunct s) s.length < 5 then
      (true, some "Password contains too little punctuation")
    else if classPct (cntSpace s) s.length > 10 then
      (true, some "Password contains too much whitespace")
    else domStage s
  else domStage s

/-! ## check_password (lines 191-234) and its collaborators -/

/-- One directory-entry attribute: a name and its values (`a_numvals > 0`
is modelled as a nonempty value list). -/
structure CAttr where
  name : String
  vals : List String
deriving DecidableEq

/-- The scan of lines 24-31: walk the attribute list while one of the two
slots is still unset; a matching attribute with at least one value stores
its first value (the C assigns unconditionally on a match, so a later
`gecos` can overwrite an earlier one while `uid` is still unset, and vice
versa). Returns (gecos, uid). -/
def guiLoop : List CAttr → Option String → Option String → Option String × Option String
  | [], gecos, uid => (gecos, uid)
  | a :: rest, gecos, uid =>
    if gecos = none ∨ uid = none then
      if a.name = "gecos" ∧ a.vals ≠ [] then guiLoop rest a.vals.head? uid
      else if a.name = "uid" ∧ a.vals ≠ [] then guiLoop rest gecos a.vals.head?
      else guiLoop rest gecos uid
    else (gecos, uid)

/-- Lines 20-34: both slots start NULL; the C function's boolean result is
`(get_user_info attrs).2 ≠ none`. -/
def get_user_info (attrs : List CAttr) : Option String × Option String :=
  guiLoop attrs none none

/-- The outcome of one `check_password` call: success (`LDAP_SUCCESS`),
rejection (`return -1` with a reason stored through `ppErrStr`), or a point
of undefined behaviour reached (the carried string names the site). -/
inductive CPOutcome where
  | success
  | rejected
  | undefinedAt (site : String)
deriving DecidableEq

/-- The observable result of one `check_password` call: the outcome, the
string stored through the `ppErrStr` out-parameter (`none` = untouched),
and the syslog lines emitted so far. -/
structure CPResult where
  outcome : CPOutcome
  errStr : Option String
  log : List String
deriving DecidableEq

/-- Lines 193-206: `uid` and `gecos` both start NULL; when an entry is
present its attributes are scanned, a missing username is logged, and then
line 205 clears both hints (`uid = gecos = NULL`, "out of an abundance of
caution").  Returns (uid, gecos, log). -/
def cpHints : Option (List CAttr) → List String → Option String × Option String × List String
  | none, log0 => (none, none, log0)
  | some attrs, log0 =>
    (none, none,
      if (get_user_info attrs).2 = none then
        log0 ++ ["Could not update password for user: couldn't find username"]
      else log0)

/-- Lines 191-234.  `oracle` models `FascistCheck(pw, dict)` and
`oracleUser` models `FascistCheckUser(pw, dict, uid, gecos)`; both return
the match reason or `none`.  Line 223 evaluates `*uid`; `uid` here is the
value produced by `cpHints`, which is always `none`, so reaching line 223
dereferences the NULL pointer (`CPOutcome.undefinedAt`); the `some` branch is the
behaviour the line would have on a non-NULL `uid` (first byte nonzero
selects `FascistCheckUser`). -/
def check_password (oracle : List Nat → Option String)
    (oracleUser : List Nat → String → Option String → Option String)
    (entry : Option (List CAttr)) (pw : List Nat) (log0 : List String) : CPResult :=
  match is_palindrome pw with
  | none =>
    { outcome := .undefinedAt "is_palindrome: out-of-bounds read, strlen underflow on empty string",
      errStr := none, log := (cpHints entry log0).2.2 }
  | some true =>
    { outcome := .rejected, errStr := some "Password is a palindrome",
      log := (cpHints entry log0).2.2 ++ ["bad password: palindrome"] }
  | some false =>
    match is_simple pw with
    | (true, e) =>
      { outcome := .rejected, errStr := e,
        log := (cpHints entry log0).2.2 ++ ["bad password: insufficiently complex"] }
    | (false, _) =>
      match (cpHints entry log0).1 with
      | none =>
        { outcome := .undefinedAt "line 223: *uid dereferences NULL",
          errStr := none, log := (cpHints entry log0).2.2 }
      | some u =>
        match (if u ≠ "" then oracleUser pw u (cpHints entry log0).2.1 else oracle pw) with
        | some e =>
          { outcome := .rejected, errStr := some e,
            log := (cpHints entry log0).2.2 ++ ["bad password: cracklib"] }
        | none =>
          { outcome := .success, errStr := none, log := (cpHints entry log0).2.2 }

/-! ## Spec-side definitions used for comparison -/

/-- Modelled from the spec, Step 5: the class bounds in their fixed order
(too-many before too-few within each class), as an ordered table of
violated-bound reasons; the first entry is the reason the spec says must be
reported. -/
def classBoundReasons (tdig tlow tupp tpun tspc : Nat) : List String :=
  (if tdig > 40 then ["Password contains too many digits"] else []) ++
  (if tdig < 5 then ["Password contains too few digits"] else []) ++
  (if tlow > 60 then ["Password contains too many lowercase letters"] else []) ++
  (if tlow < 10 then ["Password contains too few lowercase letters"] else []) ++
  (if tupp > 60 then ["Password contains too many uppercase letters"] else []) ++
  (if tupp < 10 then ["Password contains too few uppercase letters"] else []) ++
  (if tpun > 70 then ["Password contains too much punctuation"] else []) ++
  (if tpun < 5 then ["Password contains too little punctuation"] else []) ++
  (if tspc > 10 then ["Password contains too much whitespace"] else [])

/-- Modelled from the spec, Step 6: "full iteration over all 256 byte
values": some byte value's truncated percentage of the length exceeds 60. -/
def domSpecAll (s : List Nat) : Prop :=
  ∃ i ∈ Finset.range 256, charCount s i * 100 / s.length > 60

instance (s : List Nat) : Decidable (domSpecAll s) := by
  unfold domSpecAll; infer_instance

/-! ## Helper lemmas -/

/-- Each byte satisfies exactly one predicate of the classification chain. -/
lemma classChain_one (b : Nat) :
    (if isDigitClass b then 1 else 0) + (if isLowerClass b then 1 else 0)
      + (if isUpperClass b then 1 else 0) + (if isPunctClass b then 1 else 0)
      + (if isSpaceClass b then 1 else 0) + (if isOtherClass b then 1 else 0) = 1 := by
  simp only [isDigitClass, isLowerClass, isUpperClass, isPunctClass, isSpaceClass, isOtherClass]
  rcases Bool.eq_false_or_eq_true (isdigitB b) with hd | hd <;>
    rcases Bool.eq_false_or_eq_true (islowerB b) with hl | hl <;>
      rcases Bool.eq_false_or_eq_true (isupperB b) with hu | hu <;>
        rcases Bool.eq_false_or_eq_true (ispunctB b) with hp | hp <;>
          rcases Bool.eq_false_or_eq_true (isspaceB b) with hs | hs <;>
            simp [hd, hl, hu, hp, hs]

/-- The six class counters sum to the password length. -/
lemma class_counts_sum (s : List Nat) :
    cntDigits s + cntLower s + cntUpper s + cntPunct s + cntSpace s + cntOther s = s.length := by
  induction s with
  | nil => rfl
  | cons b t ih =>
    simp only [cntDigits, cntLower, cntUpper, cntPunct, cntSpace, cntOther, List.countP_cons,
      List.length_cons] at ih ⊢
    have h := classChain_one b
    omega

/-- The 256 byte buckets sum to the password length when every byte is a
genuine byte value. -/
lemma char_counts_sum (s : List Nat) (hv : ∀ b ∈ s, b < 256) :
    ∑ i ∈ Finset.range 256, charCount s i = s.length := by
  induction s with
  | nil => simp [charCount]
  | cons b t ih =>
    have hb : b < 256 := hv b (List.mem_cons_self b t)
    have ht : ∀ x ∈ t, x < 256 := fun x hx => hv x (List.mem_cons_of_mem _ hx)
    simp only [charCount, List.count_cons, List.length_cons] at ih ⊢
    rw [Finset.sum_add_distrib, ih ht]
    have hone : ∑ x ∈ Finset.range 256, (if (b == x) = true then 1 else 0) = 1 := by
      simp only [beq_iff_eq]
      rw [Finset.sum_ite_eq (Finset.range 256) b (fun _ => 1)]
      simp [Finset.mem_range, hb]
    omega

/-- The length gate of lines 76-81. -/
lemma is_simple_short (s : List Nat) (h : s.length < 8) :
    is_simple s = (true, some "Password is too short") := by
  unfold is_simple
  rw [if_pos h]

/-- The dominance stage stores a reason exactly when it rejects. -/
lemma domStage_err_iff (s : List Nat) : (domStage s).1 = false ↔ (domStage s).2 = none := by
  unfold domStage
  cases h : domScan (charCount s) s.length <;> simp

/-- is_simple returns false exactly when no reason string was stored
through errstr. -/
lemma issimple_err_iff (s : List Nat) : (is_simple s).1 = false ↔ (is_simple s).2 = none := by
  unfold is_simple
  by_cases g1 : s.length < 8
  · rw [if_pos g1]; simp
  rw [if_neg g1]
  by_cases g2 : classPct (cntOther s) s.length < 20
  swap
  · rw [if_neg g2]; exact domStage_err_iff s
  rw [if_pos g2]
  by_cases h1 : classPct (cntDigits s) s.length > 40
  · rw [if_pos h1]; simp
  rw [if_neg h1]
  by_cases h2 : classPct (cntDigits s) s.length < 5
  · rw [if_pos h2]; simp
  rw [if_neg h2]
  by_cases h3 : classPct (cntLower s) s.length > 60
  · rw [if_pos h3]; simp
  rw [if_neg h3]
  by_cases h4 : classPct (cntLower s) s.length < 10
  · rw [if_pos h4]; simp
  rw [if_neg h4]
  by_cases h5 : classPct (cntUpper s) s.length > 60
  · rw [if_pos h5]; simp
  rw [if_neg h5]
  by_cases h6 : classPct (cntUpper s) s.length < 10
  · rw [if_pos h6]; simp
  rw [if_neg h6]
  by_cases h7 : classPct (cntPunct s) s.length > 70
  · rw [if_pos h7]; simp
  rw [if_neg h7]
  by_cases h8 : classPct (cntPunct s) s.length < 5
  · rw [if_pos h8]; simp
  rw [if_neg h8]
  by_cases h9 : classPct (cntSpace s) s.length > 10
  · rw [if_pos h9]; simp
  rw [if_neg h9]
  exact domStage_err_iff s

/-! ## Claim theorems -/

/-- Claim C1, amended (the palindrome gate of line 208 runs before the
length gate inside is_simple, and the empty string hits undefined
behaviour inside is_palindrome): every password of length below 8 on which
is_palindrome returns false is rejected by check_password with the reason
string "Password is too short", for every oracle, entry and prior log. -/
theorem checkPassword_short_rejects_too_short
    (oracle : List Nat → Option String)
    (oracleUser : List Nat → String → Option String → Option String)
    (entry : Option (List CAttr)) (pw : List Nat) (log0 : List String)
    (hlen : pw.length < 8) (hpal : is_palindrome pw = some false) :
    (check_password oracle oracleUser entry pw log0).outcome = CPOutcome.rejected ∧
    (check_password oracle oracleUser entry pw log0).errStr = some "Password is too short" := by
  have hs := is_simple_short pw hlen
  cases entry <;> simp [check_password, hpal, hs]

/-- Witness for the amended claim C1 at the 7-byte non-palindrome
password "abc1234". -/
theorem checkPassword_short_rejects_too_short_witness :
    (check_password (fun _ => none) (fun _ _ _ => none) none
        [97, 98, 99, 49, 50, 51, 52] []).errStr = some "Password is too short" :=
  (checkPassword_short_rejects_too_short (fun _ => none) (fun _ _ _ => none) none
    [97, 98, 99, 49, 50, 51, 52] [] (by decide) (by decide)).2

/-- Counterexample to claim C1 as stated: the 7-byte password "aaaaaaa" is
shorter than 8 bytes but check_password rejects it with the palindrome
reason, not the too-short reason. -/
theorem checkPassword_short_claim_counterexample :
    (check_password (fun _ => none) (fun _ _ _ => none) none (List.replicate 7 97) []).errStr
        = some "Password is a palindrome" ∧
    (check_password (fun _ => none) (fun _ _ _ => none) none (List.replicate 7 97) []).errStr
        ≠ some "Password is too short" := by
  refine ⟨by decide, by decide⟩

/-- Claim C2 (code bug): the dominance loop of line 176 runs i over 0..254
only and never examines chars[255].  The password of eight 0xFF bytes
reaches the dominance stage (its "other" percentage is 100, skipping the
class checks), byte value 255 holds 100 percent of it and the spec-side
full iteration over all 256 byte values flags it, yet is_simple accepts
without storing any reason. -/
theorem issimple_misses_byte255_dominance :
    is_simple (List.replicate 8 255) = (false, none) ∧
    charCount (List.replicate 8 255) 255 * 100 / (List.replicate 8 255).length > 60 ∧
    domSpecAll (List.replicate 8 255) := by
  refine ⟨by decide, by decide, by decide⟩

/-- Claim C3 (code bug): on the empty string, line 38 underflows
j = strlen - 1 to SIZE_MAX and the loop reads out of bounds (modelled as
none), so the code does not return false there as the claim states; on
other lengths the detector behaves as claimed, shown on concrete inputs:
one byte is never a palindrome, "aa" and "Abba" are case-folded
palindromes of length at least 2, "racecar1" is not a palindrome. -/
theorem ispalindrome_empty_undefined :
    is_palindrome [] = none ∧ is_palindrome [97] = some false ∧
    is_palindrome [97, 97] = some true ∧ is_palindrome [65, 98, 98, 97] = some true ∧
    is_palindrome [114, 97, 99, 101, 99, 97, 114, 49] = some false := by
  refine ⟨rfl, by decide, by decide, by decide, by decide⟩

/-- Claim C4 (confirmed): for every password of length at least 8 whose
"other" percentage is below 20, is_simple reports exactly the first
violated bound of the ordered table (digits 40/5, lowercase 60/10,
uppercase 60/10, punctuation 70/5, whitespace 10; too-many before too-few
inside each class), and falls through to the dominance stage when no bound
is violated, so a single reason is reported. -/
theorem issimple_class_bounds_first_violation (s : List Nat)
    (h8 : ¬ s.length < 8) (hoth : classPct (cntOther s) s.length < 20) :
    is_simple s =
      (classBoundReasons (classPct (cntDigits s) s.length) (classPct (cntLower s) s.length)
          (classPct (cntUpper s) s.length) (classPct (cntPunct s) s.length)
          (classPct (cntSpace s) s.length)).head?.elim
        (domStage s) (fun m => (true, some m)) := by
  unfold is_simple
  rw [if_neg h8, if_pos hoth]
  by_cases h1 : classPct (cntDigits s) s.length > 40
  · rw [if_pos h1]; simp [classBoundReasons, h1]
  rw [if_neg h1]
  by_cases h2 : classPct (cntDigits s) s.length < 5
  · rw [if_pos h2]; simp [classBoundReasons, h1, h2]
  rw [if_neg h2]
  by_cases h3 : classPct (cntLower s) s.length > 60
  · rw [if_pos h3]; simp [classBoundReasons, h1, h2, h3]
  rw [if_neg h3]
  by_cases h4 : classPct (cntLower s) s.length < 10
  · rw [if_pos h4]; simp [classBoundReasons, h1, h2, h3, h4]
  rw [if_neg h4]
  by_cases h5 : classPct (cntUpper s) s.length > 60
  · rw [if_pos h5]; simp [classBoundReasons, h1, h2, h3, h4, h5]
  rw [if_neg h5]
  by_cases h6 : classPct (cntUpper s) s.length < 10
  · rw [if_pos h6]; simp [classBoundReasons, h1, h2, h3, h4, h5, h6]
  rw [if_neg h6]
  by_cases h7 : classPct (cntPunct s) s.length > 70
  · rw [if_pos h7]; simp [classBoundReasons, h1, h2, h3, h4, h5, h6, h7]
  rw [if_neg h7]
  by_cases h8p : classPct (cntPunct s) s.length < 5
  · rw [if_pos h8p]; simp [classBoundReasons, h1, h2, h3, h4, h5, h6, h7, h8p]
  rw [if_neg h8p]
  by_cases h9 : classPct (cntSpace s) s.length > 10
  · rw [if_pos h9]; simp [classBoundReasons, h1, h2, h3, h4, h5, h6, h7, h8p, h9]
  rw [if_neg h9]
  simp [classBoundReasons, h1, h2, h3, h4, h5, h6, h7, h8p, h9]

/-- Witness for claim C4 at the all-digit password "11111111": the digit
percentage is 100, so the first entry of the table is the reported
reason. -/
theorem issimple_class_bounds_first_violation_witness :
    is_simple (List.replicate 8 49) = (true, some "Password contains too many digits") := by
  have h := issimple_class_bounds_first_violation (List.replicate 8 49) (by decide) (by decide)
  rw [h]
  decide

/-- Claim C5 (confirmed): for every password of length at least 8 whose
"other" percentage is at least 20, is_simple is exactly its dominance
stage: all class-bound checks are skipped. -/
theorem issimple_other_escape_hatch (s : List Nat)
    (h8 : ¬ s.length < 8) (hoth : 20 ≤ classPct (cntOther s) s.length) :
    is_simple s = domStage s := by
  unfold is_simple
  rw [if_neg h8, if_neg (by omega)]

/-- Witness for claim C5 at the password of eight 0x01 bytes, whose
"other" percentage is 100. -/
theorem issimple_other_escape_hatch_witness :
    is_simple (List.replicate 8 1) = domStage (List.replicate 8 1) :=
  issimple_other_escape_hatch (List.replicate 8 1) (by decide) (by decide)

/-- Claim C6 (confirmed): the percentages of is_simple use truncating
division, so count 1 of total 9 yields 11, not 12; the truncation is
observable in the verdict: in a 21-byte password with 2 lowercase bytes
the lowercase percentage truncates to 9 (rounding would give 10) and
is_simple rejects with the too-few-lowercase reason. -/
theorem classPct_truncating_division :
    classPct 1 9 = 11 ∧ classPct 1 9 ≠ 12 ∧
    is_simple ([49, 50, 51, 97, 98] ++ List.replicate 16 65)
      = (true, some "Password contains too few lowercase letters") := by
  refine ⟨rfl, by decide, by decide⟩

/-- Claim C7 (confirmed): for every password of genuine byte values, the
six class counters and the 256 byte buckets each sum to the password
length: each byte lands in exactly one class and one bucket. -/
theorem frequency_tables_sum_to_length (s : List Nat) (hv : ∀ b ∈ s, b < 256) :
    cntDigits s + cntLower s + cntUpper s + cntPunct s + cntSpace s + cntOther s = s.length ∧
    ∑ i ∈ Finset.range 256, charCount s i = s.length :=
  ⟨class_counts_sum s, char_counts_sum s hv⟩

/-- Witness for claim C7 at the password "Ab1!Ab1!". -/
theorem frequency_tables_sum_to_length_witness :
    (∀ b ∈ [65, 98, 49, 33, 65, 98, 49, 33], b < 256) ∧
    (cntDigits [65, 98, 49, 33, 65, 98, 49, 33] + cntLower [65, 98, 49, 33, 65, 98, 49, 33]
        + cntUpper [65, 98, 49, 33, 65, 98, 49, 33] + cntPunct [65, 98, 49, 33, 65, 98, 49, 33]
        + cntSpace [65, 98, 49, 33, 65, 98, 49, 33] + cntOther [65, 98, 49, 33, 65, 98, 49, 33]
        = ([65, 98, 49, 33, 65, 98, 49, 33] : List Nat).length ∧
      ∑ i ∈ Finset.range 256, charCount [65, 98, 49, 33, 65, 98, 49, 33] i
        = ([65, 98, 49, 33, 65, 98, 49, 33] : List Nat).length) :=
  ⟨by decide, frequency_tables_sum_to_length [65, 98, 49, 33, 65, 98, 49, 33] (by decide)⟩

/-- Claim C8 (confirmed): with the identity hint absent, the verdict and
the stored reason string of check_password do not depend on any prior
state (modelled by the incoming log), so two invocations on the same
password yield identical verdicts and identical reason strings. -/
theorem checkPassword_deterministic
    (oracle : List Nat → Option String)
    (oracleUser : List Nat → String → Option String → Option String)
    (pw : List Nat) (log1 log2 : List String) :
    (check_password oracle oracleUser none pw log1).outcome
        = (check_password oracle oracleUser none pw log2).outcome ∧
    (check_password oracle oracleUser none pw log1).errStr
        = (check_password oracle oracleUser none pw log2).errStr := by
  cases hp : is_palindrome pw with
  | none => simp [check_password, hp]
  | some b =>
    cases b with
    | true => simp [check_password, hp]
    | false =>
      rcases hs : is_simple pw with ⟨ok, e⟩
      cases ok <;> simp [check_password, hp, hs, cpHints]

/-- Claim C9 (code bug): line 205 clears both identity hints, so line 223
always evaluates *uid with uid equal to the NULL pointer: on a password
that passes the palindrome and complexity gates (here "Ab1!Ab1!"),
check_password reaches undefined behaviour instead of invoking the
dictionary oracle, whatever the directory entry holds. -/
theorem checkPassword_null_deref_at_oracle :
    (check_password (fun _ => none) (fun _ _ _ => none)
        (some [⟨"uid", ["alice"]⟩, ⟨"gecos", ["Alice A"]⟩])
        [65, 98, 49, 33, 65, 98, 49, 33] []).outcome
      = CPOutcome.undefinedAt "line 223: *uid dereferences NULL" ∧
    (check_password (fun _ => none) (fun _ _ _ => none)
        (some [⟨"cn", ["nobody"]⟩])
        [65, 98, 49, 33, 65, 98, 49, 33] []).outcome
      = CPOutcome.undefinedAt "line 223: *uid dereferences NULL" := by
  refine ⟨by decide, by decide⟩

/-- Claim C10 (confirmed): is_simple stores a reason string exactly when
it returns true, and check_password stores a reason string through
ppErrStr exactly when its outcome is a rejection, for every oracle, entry,
password and prior log. -/
theorem errstr_written_iff_rejected :
    (∀ s : List Nat, (is_simple s).1 = false ↔ (is_simple s).2 = none) ∧
    (∀ (oracle : List Nat → Option String)
        (oracleUser : List Nat → String → Option String → Option String)
        (entry : Option (List CAttr)) (pw : List Nat) (log0 : List String),
      (check_password oracle oracleUser entry pw log0).outcome = CPOutcome.rejected ↔
        (check_password oracle oracleUser entry pw log0).errStr ≠ none) := by
  refine ⟨issimple_err_iff, ?_⟩
  intro oracle oracleUser entry pw log0
  cases hp : is_palindrome pw with
  | none => cases entry <;> simp [check_password, hp]
  | some b =>
    cases b with
    | true => cases entry <;> simp [check_password, hp]
    | false =>
      rcases hs : is_simple pw with ⟨ok, e⟩
      cases ok
      · cases entry <;> simp [check_password, hp, hs, cpHints]
      · have he := issimple_err_iff pw
        rw [hs] at he
        rcases e with _ | msg
        · simp at he
        · cases entry <;> simp [check_password, hp, hs]
